import Mathlib

/-!
Shallow embedding of the authentication/session core of the as-app
repository (src/services/auth.ts, the auth context provider, and the
login-form hook), together with theorems about its behaviour.

Remote boundaries (Firebase auth / Firestore) are modelled as oracle
values carried in explicit World records: each `await`ed call either
returns a value or throws a JsError, exactly following the control flow
of the TypeScript source.  Calls performed at the boundary are logged in
an effect list so that claims about which boundary calls happen can be
stated.
-/

namespace AsApp

-- ===== Data model (src/types/index.ts) =====

structure Timestamp where
  seconds : Int
  nanoseconds : Int
deriving DecidableEq, Repr

inductive UserRole where
  | admin
  | user
deriving DecidableEq, Repr

inductive PlanType where
  | basic
  | premium
  | enterprise
deriving DecidableEq, Repr

structure CompanySettings where
  monthly_usage_limit : Int
  api_usage_limit : Int
  max_users : Int
  storage_limit_gb : Int
deriving DecidableEq, Repr

structure Company where
  id : String
  name : String
  plan : PlanType
  created_at : Timestamp
  updated_at : Timestamp
  settings : CompanySettings
deriving DecidableEq, Repr

structure User where
  id : String
  email : String
  name : String
  company_id : String
  role : UserRole
  created_at : Timestamp
  last_login : Option Timestamp := none
  is_active : Bool
deriving DecidableEq, Repr

structure AuthUser extends User where
  token : Option String := none
deriving DecidableEq, Repr

structure ApiError where
  code : String
  message : String
deriving DecidableEq, Repr

structure ApiResponse (α : Type) where
  success : Bool
  data : Option α := none
  error : Option ApiError := none
  message : Option String := none
deriving DecidableEq, Repr

-- ===== JavaScript-level error values and helpers =====

/-- A thrown JavaScript error: Firebase errors carry a string `code`,
plain `new Error(msg)` values have no code (`none`). -/
structure JsError where
  code : Option String := none
  message : String
deriving DecidableEq, Repr

/-- JS `s || d` on a string: falsy (empty) strings fall through. -/
def jsOrStr (s d : String) : String :=
  if s = "" then d else s

/-- JS `s || d` where `s` may be `undefined` (modelled as `none`). -/
def jsOrOpt (s : Option String) (d : String) : String :=
  match s with
  | none => d
  | some v => jsOrStr v d

/-- The Firebase auth principal inside a UserCredential. -/
structure Principal where
  uid : String
deriving DecidableEq, Repr

/-- Boundary calls performed by the auth service, in call order. -/
inductive Effect where
  | signInCall (email password : String)
  | signOutCall
  | getDocCall (collectionName docId : String)
  | updateDocCall (collectionName docId : String)
  | setDocCall (collectionName docId : String)
  | createCredentialCall (email password : String)
  | updateProfileCall (displayName : String)
  | sendPasswordResetCall (email : String)
  | usersQueryCall (company_id : String)
  | getIdTokenCall
deriving DecidableEq, Repr

-- ===== loginUser (src/services/auth.ts lines 58-127) =====

/-- Oracle outcomes for the remote calls loginUser may perform. -/
structure LoginWorld where
  signInRes : Except JsError Principal
  userDocRes : Except JsError (Option User)
  updateDocRes : Except JsError Unit
  tokenRes : Except JsError String
  signOutRes : Except JsError Unit
deriving Repr

/-- The `switch (error.code)` of loginUser's catch block. -/
def loginErrorMessage (e : JsError) : String :=
  match e.code with
  | some "auth/user-not-found" => "メールアドレスまたはパスワードが正しくありません"
  | some "auth/wrong-password" => "メールアドレスまたはパスワードが正しくありません"
  | some "auth/too-many-requests" => "ログイン試行回数が上限に達しました。しばらく時間をおいてお試しください"
  | some "auth/user-disabled" => "このアカウントは無効化されています"
  | _ => jsOrStr e.message "ログインに失敗しました"

/-- loginUser's catch block: builds the failure envelope. -/
def loginCatch (e : JsError) : ApiResponse AuthUser :=
  { success := false
    error := some { code := jsOrOpt e.code "login-failed", message := loginErrorMessage e } }

/-- loginUser, following the source control flow statement by statement. -/
def loginUser (email password : String) (w : LoginWorld) :
    ApiResponse AuthUser × List Effect :=
  let eff0 : List Effect := [Effect.signInCall email password]
  match w.signInRes with
  | Except.error e => (loginCatch e, eff0)
  | Except.ok principal =>
    let eff1 := eff0 ++ [Effect.getDocCall "users" principal.uid]
    match w.userDocRes with
    | Except.error e => (loginCatch e, eff1)
    | Except.ok none =>
      (loginCatch { message := "ユーザー情報が見つかりません" }, eff1)
    | Except.ok (some userData) =>
      if userData.is_active = false then
        let eff2 := eff1 ++ [Effect.signOutCall]
        match w.signOutRes with
        | Except.error e => (loginCatch e, eff2)
        | Except.ok _ =>
          (loginCatch { message := "このアカウントは無効化されています" }, eff2)
      else
        let eff2 := eff1 ++ [Effect.updateDocCall "users" principal.uid]
        match w.updateDocRes with
        | Except.error e => (loginCatch e, eff2)
        | Except.ok _ =>
          let eff3 := eff2 ++ [Effect.getIdTokenCall]
          match w.tokenRes with
          | Except.error e => (loginCatch e, eff3)
          | Except.ok token =>
            ({ success := true
               data := some { toUser := userData, token := some token }
               message := some "ログインに成功しました" }, eff3)

-- ===== createUser (src/services/auth.ts lines 131-210) =====

structure CreateUserInput where
  email : String
  password : String
  name : String
  company_id : String
  role : UserRole
deriving DecidableEq, Repr

structure CreateUserWorld where
  companyDocRes : Except JsError (Option Company)
  createCredentialRes : Except JsError Principal
  updateProfileRes : Except JsError Unit
  setDocRes : Except JsError Unit
  serverTs : Timestamp
deriving Repr

/-- The `switch (error.code)` of createUser's catch block. -/
def createErrorMessage (e : JsError) : String :=
  match e.code with
  | some "auth/email-already-in-use" => "このメールアドレスは既に使用されています"
  | some "auth/weak-password" => "パスワードが短すぎます（6文字以上）"
  | some "auth/invalid-email" => "メールアドレスの形式が正しくありません"
  | _ => jsOrStr e.message "ユーザー作成に失敗しました"

/-- createUser's catch block: builds the failure envelope. -/
def createCatch (e : JsError) : ApiResponse User :=
  { success := false
    error := some { code := jsOrOpt e.code "user-creation-failed", message := createErrorMessage e } }

/-- createUser, following the source control flow statement by statement. -/
def createUser (input : CreateUserInput) (currentUser : AuthUser) (w : CreateUserWorld) :
    ApiResponse User × List Effect :=
  if currentUser.role ≠ UserRole.admin then
    (createCatch { message := "ユーザー作成権限がありません" }, [])
  else
    let eff1 : List Effect := [Effect.getDocCall "companies" input.company_id]
    match w.companyDocRes with
    | Except.error e => (createCatch e, eff1)
    | Except.ok none =>
      (createCatch { message := "指定された会社が見つかりません" }, eff1)
    | Except.ok (some _) =>
      let eff2 := eff1 ++ [Effect.createCredentialCall input.email input.password]
      match w.createCredentialRes with
      | Except.error e => (createCatch e, eff2)
      | Except.ok principal =>
        let eff3 := eff2 ++ [Effect.updateProfileCall input.name]
        match w.updateProfileRes with
        | Except.error e => (createCatch e, eff3)
        | Except.ok _ =>
          let newUser : User :=
            { id := principal.uid
              email := input.email
              name := input.name
              company_id := input.company_id
              role := input.role
              created_at := w.serverTs
              is_active := true }
          let eff4 := eff3 ++ [Effect.setDocCall "users" principal.uid]
          match w.setDocRes with
          | Except.error e => (createCatch e, eff4)
          | Except.ok _ =>
            ({ success := true
               data := some newUser
               message := some "ユーザーを作成しました" }, eff4)

-- ===== logoutUser (src/services/auth.ts lines 214-231) =====

/-- logoutUser: signs out and maps any failure to a fixed error envelope. -/
def logoutUser (signOutRes : Except JsError Unit) : ApiResponse Unit × List Effect :=
  match signOutRes with
  | Except.ok _ =>
    ({ success := true, message := some "ログアウトしました" }, [Effect.signOutCall])
  | Except.error _ =>
    ({ success := false
       error := some { code := "logout-failed", message := "ログアウトに失敗しました" } },
     [Effect.signOutCall])

-- ===== resetPassword (src/services/auth.ts lines 235-266) =====

/-- The `switch (error.code)` of resetPassword's catch block. -/
def resetErrorMessage (e : JsError) : String :=
  match e.code with
  | some "auth/user-not-found" => "このメールアドレスのユーザーが見つかりません"
  | some "auth/invalid-email" => "メールアドレスの形式が正しくありません"
  | _ => jsOrStr e.message "パスワードリセットに失敗しました"

/-- resetPassword, following the source. -/
def resetPassword (email : String) (sendRes : Except JsError Unit) :
    ApiResponse Unit × List Effect :=
  let effs : List Effect := [Effect.sendPasswordResetCall email]
  match sendRes with
  | Except.ok _ =>
    ({ success := true, message := some "パスワードリセットメールを送信しました" }, effs)
  | Except.error e =>
    ({ success := false
       error := some { code := jsOrOpt e.code "password-reset-failed"
                       message := resetErrorMessage e } }, effs)

-- ===== getCompanyData (src/services/auth.ts lines 270-294) =====

/-- getCompanyData, following the source. -/
def getCompanyData (companyId : String) (docRes : Except JsError (Option Company)) :
    ApiResponse Company × List Effect :=
  let effs : List Effect := [Effect.getDocCall "companies" companyId]
  match docRes with
  | Except.error e =>
    ({ success := false
       error := some { code := "company-fetch-failed"
                       message := jsOrStr e.message "会社情報の取得に失敗しました" } }, effs)
  | Except.ok none =>
    ({ success := false
       error := some { code := "company-fetch-failed"
                       message := "会社情報が見つかりません" } }, effs)
  | Except.ok (some companyData) =>
    ({ success := true, data := some companyData }, effs)

-- ===== getCompanyUsers (src/services/auth.ts lines 298-334) =====

/-- getCompanyUsers: tenant check first, then the filtered users query. -/
def getCompanyUsers (companyId : String) (currentUser : AuthUser)
    (queryRes : Except JsError (List User)) : ApiResponse (List User) × List Effect :=
  if currentUser.company_id ≠ companyId then
    ({ success := false
       error := some { code := "users-fetch-failed"
                       message := "この会社のユーザー一覧を見る権限がありません" } }, [])
  else
    let effs : List Effect := [Effect.usersQueryCall companyId]
    match queryRes with
    | Except.error e =>
      ({ success := false
         error := some { code := "users-fetch-failed"
                         message := jsOrStr e.message "ユーザー一覧の取得に失敗しました" } }, effs)
    | Except.ok users =>
      ({ success := true, data := some users }, effs)

-- ===== toggleUserStatus (src/services/auth.ts lines 338-384) =====

structure ToggleWorld where
  userDocRes : Except JsError (Option User)
  updateDocRes : Except JsError Unit
deriving Repr

/-- toggleUserStatus's catch block: builds the failure envelope. -/
def toggleCatch (e : JsError) : ApiResponse Unit :=
  { success := false
    error := some { code := "status-toggle-failed"
                    message := jsOrStr e.message "ユーザー状態の変更に失敗しました" } }

/-- toggleUserStatus, following the source control flow statement by statement. -/
def toggleUserStatus (userId : String) (isActive : Bool) (currentUser : AuthUser)
    (w : ToggleWorld) : ApiResponse Unit × List Effect :=
  if currentUser.role ≠ UserRole.admin then
    (toggleCatch { message := "ユーザー状態変更権限がありません" }, [])
  else
    let eff1 : List Effect := [Effect.getDocCall "users" userId]
    match w.userDocRes with
    | Except.error e => (toggleCatch e, eff1)
    | Except.ok none =>
      (toggleCatch { message := "ユーザーが見つかりません" }, eff1)
    | Except.ok (some userData) =>
      if userData.company_id ≠ currentUser.company_id then
        (toggleCatch { message := "異なる会社のユーザーは変更できません" }, eff1)
      else if userId = currentUser.id then
        (toggleCatch { message := "自分自身のアカウントは無効化できません" }, eff1)
      else
        let eff2 := eff1 ++ [Effect.updateDocCall "users" userId]
        match w.updateDocRes with
        | Except.error e => (toggleCatch e, eff2)
        | Except.ok _ =>
          ({ success := true
             message := some (if isActive then "ユーザーを有効にしました" else "ユーザーを無効にしました") },
           eff2)

-- ===== onAuthStateChange handler (src/services/auth.ts lines 27-54) =====

structure WatcherWorld where
  userDocRes : Except JsError (Option User)
  tokenRes : Except JsError String
  signOutRes : Except JsError Unit
deriving Repr

/-- The per-notification handler registered by onAuthStateChange: returns
the list of callback invocations (in order) and the boundary calls made. -/
def authStateHandler (firebaseUser : Option Principal) (w : WatcherWorld) :
    List (Option AuthUser) × List Effect :=
  match firebaseUser with
  | none => ([none], [])
  | some principal =>
    let eff1 : List Effect := [Effect.getDocCall "users" principal.uid]
    match w.userDocRes with
    | Except.error _ => ([none], eff1)
    | Except.ok none =>
      let eff2 := eff1 ++ [Effect.signOutCall]
      match w.signOutRes with
      | Except.error _ => ([none], eff2)
      | Except.ok _ => ([none], eff2)
    | Except.ok (some userData) =>
      let eff2 := eff1 ++ [Effect.getIdTokenCall]
      match w.tokenRes with
      | Except.error _ => ([none], eff2)
      | Except.ok token => ([some { toUser := userData, token := some token }], eff2)

-- ===== Session Context (AuthProvider in the auth context source file) =====

/-- Client-local session state held by the AuthProvider.  `lastFetch` is a
ghost history variable recording the outcome of the most recent tenant
(company) fetch of the current session: it is not a field of the source
state, but tracks the trace fact the spec's invariant refers to. -/
structure SessionState where
  user : Option AuthUser
  company : Option Company
  loading : Bool
  error : Option String
  lastFetch : Option Bool
deriving DecidableEq, Repr

/-- Initial provider state: user null, company null, loading true, error null. -/
def initState : SessionState :=
  { user := none, company := none, loading := true, error := none, lastFetch := none }

/-- Events driving the Session Context: watcher notifications (carrying the
oracle for the getCompanyData call the handler performs), calls to the
context's login/logout functions, and clearError. -/
inductive SessionEvent where
  | notifyUser (u : AuthUser) (companyDocRes : Except JsError (Option Company))
  | notifyAbsent
  | doLogin (email password : String) (w : LoginWorld)
  | doLogout (signOutRes : Except JsError Unit)
  | clearErr

/-- One state transition of the AuthProvider, following the source handlers:
the watcher effect (setUser, then getCompanyData, setCompany on success or
setError on failure, finally setLoading false), the login function (setError
from the envelope), the logout function (setUser null, setCompany null), and
clearError. -/
def step (s : SessionState) (ev : SessionEvent) : SessionState :=
  match ev with
  | SessionEvent.notifyUser u companyDocRes =>
    let companyResult := (getCompanyData u.company_id companyDocRes).1
    if companyResult.success && companyResult.data.isSome then
      { s with user := some u, company := companyResult.data, loading := false,
               lastFetch := some true }
    else
      { s with user := some u, error := some "会社情報の取得に失敗しました", loading := false,
               lastFetch := some false }
  | SessionEvent.notifyAbsent =>
    { s with user := none, company := none, loading := false, lastFetch := none }
  | SessionEvent.doLogin email password w =>
    let result := (loginUser email password w).1
    if result.success then
      { s with loading := false, error := none }
    else
      { s with loading := false
               error := some (jsOrOpt (result.error.map ApiError.message) "ログインに失敗しました") }
  | SessionEvent.doLogout signOutRes =>
    let _ := (logoutUser signOutRes).1
    { s with user := none, company := none, error := none, loading := false }
  | SessionEvent.clearErr => { s with error := none }

/-- States the AuthProvider can actually be in. -/
inductive Reachable : SessionState → Prop
  | init : Reachable initState
  | next {s : SessionState} (h : Reachable s) (ev : SessionEvent) : Reachable (step s ev)

/-- Run a sequence of events from a state. -/
def run (s : SessionState) (evs : List SessionEvent) : SessionState :=
  evs.foldl step s

-- ===== Login Form Controller (useLoginForm in the auth context source) =====

structure LoginFormValues where
  email : String
  password : String
deriving DecidableEq, Repr

structure LoginFormErrors where
  email : Option String := none
  password : Option String := none
deriving DecidableEq, Repr

/-- JS whitespace class matched by the regex's backslash-s (ASCII part). -/
def isJsSpace (c : Char) : Bool :=
  c == ' ' || c == '\t' || c == '\n' || c == '\x0d' || c == '\x0b' || c == '\x0c'

/-- A character admitted by the regex character class excluding whitespace
and at-sign. -/
def atomChar (c : Char) : Bool :=
  !(isJsSpace c) && !(c == '@')

/-- The email regex of validateForm: one at-sign splitting a non-empty local
part from a domain that contains a literal dot with non-empty pieces on both
sides, with no whitespace or at-sign anywhere.  A match exists exactly when
positions i (the at-sign) and j (a dot) split the string this way. -/
def emailPattern (s : String) : Bool :=
  let cs := s.toList
  let n := cs.length
  (List.range n).any (fun i =>
    (List.range n).any (fun j =>
      decide (1 ≤ i) && decide (i + 2 ≤ j) && decide (j + 2 ≤ n) &&
      (cs.getD i ' ' == '@') && (cs.getD j ' ' == '.') &&
      ((cs.take i).all atomChar) &&
      (((cs.drop (i + 1)).take (j - i - 1)).all atomChar) &&
      ((cs.drop (j + 1)).all atomChar)))

/-- Email half of validateForm: required, then pattern check. -/
def emailFieldError (email : String) : Option String :=
  if email = "" then some "メールアドレスは必須です"
  else if emailPattern email = false then some "メールアドレスの形式が正しくありません"
  else none

/-- Password half of validateForm: required, then minimum length 6. -/
def passwordFieldError (password : String) : Option String :=
  if password = "" then some "パスワードは必須です"
  else if password.length < 6 then some "パスワードは6文字以上で入力してください"
  else none

/-- validateForm: computes the newErrors object. -/
def validateForm (values : LoginFormValues) : LoginFormErrors :=
  { email := emailFieldError values.email, password := passwordFieldError values.password }

/-- validateForm's return value: true when the newErrors object has no keys. -/
def formIsValid (e : LoginFormErrors) : Bool :=
  e.email.isNone && e.password.isNone

/-- handleSubmit: aborts when validation fails, otherwise calls login once.
Returns the field errors set by validateForm and the number of login calls. -/
def handleSubmit (values : LoginFormValues) : LoginFormErrors × Nat :=
  let errs := validateForm values
  if formIsValid errs then (errs, 1) else (errs, 0)

-- ===== Concrete fixtures (mirroring the repository's test data) =====

def tsZero : Timestamp := { seconds := 0, nanoseconds := 0 }

def sampleSettings : CompanySettings :=
  { monthly_usage_limit := 50, api_usage_limit := 300, max_users := 10, storage_limit_gb := 5 }

def companyOne : Company :=
  { id := "test-company-id", name := "テスト会社", plan := PlanType.premium,
    created_at := tsZero, updated_at := tsZero, settings := sampleSettings }

def activeUser : User :=
  { id := "test-user-id", email := "test@example.com", name := "テストユーザー",
    company_id := "test-company-id", role := UserRole.user, created_at := tsZero,
    is_active := true }

def inactiveUser : User := { activeUser with is_active := false }

def adminAuthUser : AuthUser :=
  { toUser := { activeUser with id := "test-admin-id", role := UserRole.admin },
    token := some "mock-token" }

def memberAuthUser : AuthUser := { toUser := activeUser, token := some "mock-token" }

-- ===== Outcome Envelope invariant =====

/-- The envelope invariant: success implies no error field, failure implies
no data field. -/
def envelopeOk {α : Type} (r : ApiResponse α) : Bool :=
  (!r.success || r.error.isNone) && (r.success || r.data.isNone)

theorem envelopeOk_loginUser (email password : String) (w : LoginWorld) :
    envelopeOk (loginUser email password w).1 = true := by
  unfold loginUser
  rcases w with ⟨si, ud, upd, tok, so⟩
  rcases si with e | p
  · rfl
  rcases ud with e | (_ | u)
  · rfl
  · rfl
  cases hA : u.is_active
  · simp only [hA]
    rcases so with e | s <;> rfl
  · simp only [hA]
    rcases upd with e | s
    · rfl
    rcases tok with e | t <;> rfl

theorem envelopeOk_createUser (input : CreateUserInput) (cu : AuthUser)
    (w : CreateUserWorld) : envelopeOk (createUser input cu w).1 = true := by
  unfold createUser
  rcases w with ⟨cd, cc, up, sd, ts⟩
  by_cases hr : cu.role ≠ UserRole.admin
  · rw [if_pos hr]
    rfl
  rw [if_neg hr]
  rcases cd with e | (_ | c)
  · rfl
  · rfl
  rcases cc with e | p
  · rfl
  rcases up with e | s
  · rfl
  rcases sd with e | s <;> rfl

theorem envelopeOk_logoutUser (r : Except JsError Unit) :
    envelopeOk (logoutUser r).1 = true := by
  rcases r with e | s <;> rfl

theorem envelopeOk_resetPassword (email : String) (r : Except JsError Unit) :
    envelopeOk (resetPassword email r).1 = true := by
  rcases r with e | s <;> rfl

theorem envelopeOk_getCompanyData (cid : String) (r : Except JsError (Option Company)) :
    envelopeOk (getCompanyData cid r).1 = true := by
  rcases r with e | (_ | c) <;> rfl

theorem envelopeOk_getCompanyUsers (cid : String) (cu : AuthUser)
    (q : Except JsError (List User)) : envelopeOk (getCompanyUsers cid cu q).1 = true := by
  unfold getCompanyUsers
  by_cases hm : cu.company_id ≠ cid
  · rw [if_pos hm]
    rfl
  rw [if_neg hm]
  rcases q with e | users <;> rfl

theorem envelopeOk_toggleUserStatus (uid : String) (act : Bool) (cu : AuthUser)
    (w : ToggleWorld) : envelopeOk (toggleUserStatus uid act cu w).1 = true := by
  unfold toggleUserStatus
  rcases w with ⟨ud, upd⟩
  by_cases hr : cu.role ≠ UserRole.admin
  · rw [if_pos hr]
    rfl
  rw [if_neg hr]
  rcases ud with e | (_ | u)
  · rfl
  · rfl
  dsimp only
  by_cases hc : u.company_id ≠ cu.company_id
  · rw [if_pos hc]
    rfl
  rw [if_neg hc]
  by_cases hs : uid = cu.id
  · rw [if_pos hs]
    rfl
  rw [if_neg hs]
  rcases upd with e | s <;> rfl

/-- C1: every Auth Action (loginUser, createUser, logoutUser, resetPassword,
getCompanyData, getCompanyUsers, toggleUserStatus) returns an Outcome
Envelope in which success implies the error field is absent and failure
implies the data field is absent, for every input and every oracle world. -/
theorem envelope_invariant_all_actions :
    (∀ email password w, envelopeOk (loginUser email password w).1 = true)
    ∧ (∀ input cu w, envelopeOk (createUser input cu w).1 = true)
    ∧ (∀ r, envelopeOk (logoutUser r).1 = true)
    ∧ (∀ email r, envelopeOk (resetPassword email r).1 = true)
    ∧ (∀ cid r, envelopeOk (getCompanyData cid r).1 = true)
    ∧ (∀ cid cu q, envelopeOk (getCompanyUsers cid cu q).1 = true)
    ∧ (∀ uid act cu w, envelopeOk (toggleUserStatus uid act cu w).1 = true) :=
  ⟨envelopeOk_loginUser, envelopeOk_createUser, envelopeOk_logoutUser,
   envelopeOk_resetPassword, envelopeOk_getCompanyData, envelopeOk_getCompanyUsers,
   envelopeOk_toggleUserStatus⟩

-- ===== C2: login against an inactive Identity Record =====

def inactiveLoginWorld : LoginWorld :=
  { signInRes := Except.ok { uid := "test-user-id" }
    userDocRes := Except.ok (some inactiveUser)
    updateDocRes := Except.ok ()
    tokenRes := Except.ok "mock-token"
    signOutRes := Except.ok () }

/-- C2 counterexample: with authentication succeeding and the Identity
Record present but inactive, loginUser returns success = false, but the
error code is the generic fallback "login-failed", not "account-inactive":
the inactive-account failure is raised as a plain error without a code, so
the catch block substitutes the fallback code. -/
theorem login_inactive_code_not_account_inactive :
    inactiveLoginWorld.signInRes = Except.ok { uid := "test-user-id" }
    ∧ inactiveLoginWorld.userDocRes = Except.ok (some inactiveUser)
    ∧ inactiveUser.is_active = false
    ∧ (loginUser "test@example.com" "password123" inactiveLoginWorld).1.success = false
    ∧ ((loginUser "test@example.com" "password123" inactiveLoginWorld).1.error.map ApiError.code)
        = some "login-failed"
    ∧ ((loginUser "test@example.com" "password123" inactiveLoginWorld).1.error.map ApiError.code)
        ≠ some "account-inactive" := by
  refine ⟨rfl, rfl, rfl, ?_, ?_, ?_⟩ <;> decide

/-- C2 amended: when authentication succeeds and the Identity Record exists
with is_active = false, loginUser returns success = false and performs the
remote session revocation (signOut) call before returning; the error carries
the fallback code "login-failed" with the inactive-account message whenever
the signOut call itself succeeds. -/
theorem login_inactive_fails_and_revokes (email password : String) (w : LoginWorld)
    (p : Principal) (u : User)
    (hs : w.signInRes = Except.ok p) (hd : w.userDocRes = Except.ok (some u))
    (ha : u.is_active = false) :
    (loginUser email password w).1.success = false
    ∧ Effect.signOutCall ∈ (loginUser email password w).2
    ∧ (w.signOutRes = Except.ok () →
        (loginUser email password w).1.error =
          some { code := "login-failed", message := "このアカウントは無効化されています" }) := by
  obtain ⟨si, ud, upd, tok, so⟩ := w
  dsimp only at hs hd
  subst hs
  subst hd
  unfold loginUser
  dsimp only
  rw [if_pos ha]
  rcases so with e | s
  · exact ⟨rfl, by simp, fun h => nomatch h⟩
  · exact ⟨rfl, by simp, fun _ => rfl⟩

theorem login_inactive_fails_and_revokes_witness :
    (loginUser "test@example.com" "password123" inactiveLoginWorld).1.success = false
    ∧ Effect.signOutCall ∈ (loginUser "test@example.com" "password123" inactiveLoginWorld).2
    ∧ (loginUser "test@example.com" "password123" inactiveLoginWorld).1.error =
        some { code := "login-failed", message := "このアカウントは無効化されています" } :=
  have h := login_inactive_fails_and_revokes "test@example.com" "password123"
    inactiveLoginWorld { uid := "test-user-id" } inactiveUser rfl rfl rfl
  ⟨h.1, h.2.1, h.2.2 rfl⟩

-- ===== C3: the last-login stamp is not best-effort =====

def goodLoginWorld : LoginWorld :=
  { signInRes := Except.ok { uid := "test-user-id" }
    userDocRes := Except.ok (some activeUser)
    updateDocRes := Except.ok ()
    tokenRes := Except.ok "mock-token"
    signOutRes := Except.ok () }

def stampFailLoginWorld : LoginWorld :=
  { signInRes := Except.ok { uid := "test-user-id" }
    userDocRes := Except.ok (some activeUser)
    updateDocRes := Except.error { message := "update failed" }
    tokenRes := Except.ok "mock-token"
    signOutRes := Except.ok () }

/-- C3 counterexample: authentication succeeds, the Identity Record is found
and active, but the write that stamps the last-login time fails; loginUser
then returns success = false with no data, so a stamp failure does change
the outcome. -/
theorem login_stamp_failure_breaks_login :
    stampFailLoginWorld.signInRes = Except.ok { uid := "test-user-id" }
    ∧ stampFailLoginWorld.userDocRes = Except.ok (some activeUser)
    ∧ activeUser.is_active = true
    ∧ stampFailLoginWorld.updateDocRes = Except.error { message := "update failed" }
    ∧ (loginUser "test@example.com" "password123" stampFailLoginWorld).1.success = false
    ∧ (loginUser "test@example.com" "password123" stampFailLoginWorld).1.data = none := by
  refine ⟨rfl, rfl, rfl, rfl, ?_, ?_⟩ <;> decide

/-- C3 amended: for a login where authentication succeeds and the Identity
Record is found with is_active = true, loginUser returns success = true with
the session user and token only when the last-login stamp write (and the
token fetch) succeed; if the stamp write fails, loginUser returns a failure
envelope — the stamp is awaited inside the try block and is required, not
best-effort. -/
theorem login_active_requires_stamp (email password : String) (w : LoginWorld)
    (p : Principal) (u : User)
    (hs : w.signInRes = Except.ok p) (hd : w.userDocRes = Except.ok (some u))
    (ha : u.is_active = true) :
    (∀ t, w.updateDocRes = Except.ok () → w.tokenRes = Except.ok t →
      (loginUser email password w).1 =
        { success := true, data := some { toUser := u, token := some t },
          message := some "ログインに成功しました" })
    ∧ (∀ e, w.updateDocRes = Except.error e → (loginUser email password w).1.success = false) := by
  have hne : ¬(u.is_active = false) := by simp [ha]
  unfold loginUser
  rw [hs, hd]
  dsimp only
  rw [if_neg hne]
  constructor
  · intro t hupd htok
    rw [hupd]
    dsimp only
    rw [htok]
  · intro e hupd
    rw [hupd]
    rfl

theorem login_active_requires_stamp_witness :
    (loginUser "test@example.com" "password123" goodLoginWorld).1 =
      { success := true, data := some { toUser := activeUser, token := some "mock-token" },
        message := some "ログインに成功しました" }
    ∧ (loginUser "test@example.com" "password123" stampFailLoginWorld).1.success = false :=
  have h1 := login_active_requires_stamp "test@example.com" "password123" goodLoginWorld
    { uid := "test-user-id" } activeUser rfl rfl rfl
  have h2 := login_active_requires_stamp "test@example.com" "password123" stampFailLoginWorld
    { uid := "test-user-id" } activeUser rfl rfl rfl
  ⟨h1.1 "mock-token" rfl rfl, h2.2 { message := "update failed" } rfl⟩

-- ===== C4: the Session Context company invariant =====

def cexEvents : List SessionEvent :=
  [SessionEvent.notifyUser memberAuthUser (Except.ok (some companyOne)),
   SessionEvent.notifyUser memberAuthUser (Except.ok none)]

def cexState : SessionState := run initState cexEvents

/-- C4 counterexample: after a notification whose tenant fetch succeeds
followed by one whose tenant fetch fails, the provider state is reachable,
keeps the stale company from the earlier fetch, yet the most recent tenant
fetch for the session failed — so company being populated is not equivalent
to the most recent tenant fetch having succeeded. -/
theorem company_stale_after_failed_fetch :
    Reachable cexState
    ∧ cexState.user.isSome = true
    ∧ cexState.company = some companyOne
    ∧ cexState.lastFetch = some false
    ∧ ¬(cexState.company.isSome = true ↔
        (cexState.user.isSome = true ∧ cexState.lastFetch = some true)) := by
  refine ⟨?_, ?_, ?_, ?_, ?_⟩
  · show Reachable (step (step initState
      (SessionEvent.notifyUser memberAuthUser (Except.ok (some companyOne))))
      (SessionEvent.notifyUser memberAuthUser (Except.ok none)))
    exact Reachable.next (Reachable.next Reachable.init _) _
  · decide
  · decide
  · decide
  · decide

/-- C4 amended: in every reachable Session Context state, a populated
company field implies a session exists (user present); and when the tenant
fetch of a notification fails, user is still set, the fixed error message is
recorded, and company keeps its previous value — possibly a stale record
from an earlier successful fetch — so a populated company does not imply the
most recent tenant fetch succeeded. -/
theorem session_company_implies_user :
    (∀ s, Reachable s → s.company.isSome = true → s.user.isSome = true)
    ∧ (∀ (s : SessionState) (u : AuthUser) (docRes : Except JsError (Option Company)),
        ((getCompanyData u.company_id docRes).1.success
          && (getCompanyData u.company_id docRes).1.data.isSome) = false →
        (step s (SessionEvent.notifyUser u docRes)).user = some u
        ∧ (step s (SessionEvent.notifyUser u docRes)).error = some "会社情報の取得に失敗しました"
        ∧ (step s (SessionEvent.notifyUser u docRes)).company = s.company) := by
  constructor
  · intro s hr
    induction hr with
    | init => decide
    | next hprev ev ih =>
      cases ev with
      | notifyUser u docRes =>
        simp only [step]
        split
        · intro _
          rfl
        · intro _
          rfl
      | notifyAbsent =>
        simp only [step]
        intro h
        nomatch h
      | doLogin email password w =>
        simp only [step]
        split
        · exact ih
        · exact ih
      | doLogout r =>
        simp only [step]
        intro h
        nomatch h
      | clearErr =>
        simp only [step]
        exact ih
  · intro s u docRes hfail
    refine ⟨?_, ?_, ?_⟩ <;> simp [step, hfail]

def oneGoodNotify : SessionState :=
  step initState (SessionEvent.notifyUser memberAuthUser (Except.ok (some companyOne)))

theorem session_company_implies_user_witness :
    oneGoodNotify.user.isSome = true
    ∧ (step initState (SessionEvent.notifyUser memberAuthUser (Except.ok none))).error
        = some "会社情報の取得に失敗しました" :=
  ⟨session_company_implies_user.1 oneGoodNotify (Reachable.next Reachable.init _) (by decide),
   (session_company_implies_user.2 initState memberAuthUser (Except.ok none) (by decide)).2.1⟩

-- ===== C5: createUser denies non-admin actors =====

def newUserInput : CreateUserInput :=
  { email := "newuser@example.com", password := "password123", name := "新規ユーザー",
    company_id := "test-company-id", role := UserRole.user }

def createWorldOk : CreateUserWorld :=
  { companyDocRes := Except.ok (some companyOne)
    createCredentialRes := Except.ok { uid := "new-user-id" }
    updateProfileRes := Except.ok ()
    setDocRes := Except.ok ()
    serverTs := tsZero }

/-- C5: for every input, every world and every acting user whose role is
user (not admin), createUser returns success = false with the
authorization-denial message, and the credential-creation boundary and the
document-write boundary are never called. -/
theorem createUser_nonadmin_denied (input : CreateUserInput) (cu : AuthUser)
    (w : CreateUserWorld) (h : cu.role = UserRole.user) :
    (createUser input cu w).1.success = false
    ∧ (createUser input cu w).1.error =
        some { code := "user-creation-failed", message := "ユーザー作成権限がありません" }
    ∧ (∀ e pw, Effect.createCredentialCall e pw ∉ (createUser input cu w).2)
    ∧ (∀ c i, Effect.setDocCall c i ∉ (createUser input cu w).2) := by
  have hr : cu.role ≠ UserRole.admin := by
    rw [h]
    decide
  unfold createUser
  rw [if_pos hr]
  refine ⟨rfl, rfl, ?_, ?_⟩
  · intro e pw hm
    simp at hm
  · intro c i hm
    simp at hm

theorem createUser_nonadmin_denied_witness :
    (createUser newUserInput memberAuthUser createWorldOk).1.success = false
    ∧ Effect.createCredentialCall "newuser@example.com" "password123"
        ∉ (createUser newUserInput memberAuthUser createWorldOk).2 :=
  have h := createUser_nonadmin_denied newUserInput memberAuthUser createWorldOk rfl
  ⟨h.1, h.2.2.1 "newuser@example.com" "password123"⟩

-- ===== C6: toggleUserStatus always rejects self-targeting =====

/-- C6: for every acting user of any role, any isActive value and any
world (hence any tenant and any directory contents), toggleUserStatus with
userId equal to the acting user's own id returns success = false and the
active-flag update write is never performed. -/
theorem toggleUserStatus_self_always_fails :
    ∀ (isActive : Bool) (cu : AuthUser) (w : ToggleWorld),
      (toggleUserStatus cu.id isActive cu w).1.success = false
      ∧ (∀ c i, Effect.updateDocCall c i ∉ (toggleUserStatus cu.id isActive cu w).2) := by
  intro act cu w
  rcases w with ⟨ud, upd⟩
  unfold toggleUserStatus
  by_cases hr : cu.role ≠ UserRole.admin
  · rw [if_pos hr]
    refine ⟨rfl, ?_⟩
    intro c i hm
    simp at hm
  rw [if_neg hr]
  rcases ud with e | (_ | u)
  · refine ⟨rfl, ?_⟩
    intro c i hm
    simp at hm
  · refine ⟨rfl, ?_⟩
    intro c i hm
    simp at hm
  dsimp only
  by_cases hc : u.company_id ≠ cu.company_id
  · rw [if_pos hc]
    refine ⟨rfl, ?_⟩
    intro c i hm
    simp at hm
  rw [if_neg hc]
  rw [if_pos rfl]
  refine ⟨rfl, ?_⟩
  intro c i hm
  simp at hm

-- ===== C7: the Session Watcher's per-notification behaviour =====

def watcherWorldNotFound : WatcherWorld :=
  { userDocRes := Except.ok none, tokenRes := Except.ok "mock-token", signOutRes := Except.ok () }

/-- C7: for every notification carrying a principal, if the Identity Record
is not found the handler performs the remote revocation (signOut) and
invokes the callback once with absent; if the directory fetch throws, the
failure is absorbed and the callback is invoked once with absent; and for
every notification (principal or absent) the callback is invoked exactly
once. -/
theorem watcher_callback_exactly_once (p : Principal) (w : WatcherWorld) :
    (w.userDocRes = Except.ok none →
      Effect.signOutCall ∈ (authStateHandler (some p) w).2
      ∧ (authStateHandler (some p) w).1 = [none])
    ∧ (∀ e, w.userDocRes = Except.error e → (authStateHandler (some p) w).1 = [none])
    ∧ (∀ fu : Option Principal, ((authStateHandler fu w).1).length = 1) := by
  obtain ⟨ud, tok, so⟩ := w
  refine ⟨?_, ?_, ?_⟩
  · intro h
    dsimp only at h
    subst h
    unfold authStateHandler
    dsimp only
    rcases so with e | s
    · exact ⟨by simp, rfl⟩
    · exact ⟨by simp, rfl⟩
  · intro e h
    dsimp only at h
    subst h
    rfl
  · intro fu
    rcases fu with _ | q
    · rfl
    · unfold authStateHandler
      dsimp only
      rcases ud with e | (_ | u)
      · rfl
      · rcases so with e | s <;> rfl
      · rcases tok with e | t <;> rfl

theorem watcher_callback_exactly_once_witness :
    Effect.signOutCall ∈ (authStateHandler (some { uid := "gone-user" }) watcherWorldNotFound).2
    ∧ (authStateHandler (some { uid := "gone-user" }) watcherWorldNotFound).1 = [none]
    ∧ ((authStateHandler none watcherWorldNotFound).1).length = 1 :=
  have h := watcher_callback_exactly_once { uid := "gone-user" } watcherWorldNotFound
  ⟨(h.1 rfl).1, (h.1 rfl).2, h.2.2 none⟩

-- ===== C8: Login Form Controller validation gating =====

/-- C8: submitting the login form with email "not-an-email" and any
password sets a field error on email and never invokes login; with email
"a@b.com" and the 5-character password "12345" it sets a field error on
password and never invokes login; with email "a@b.com" and password
"123456" it invokes login exactly once. -/
theorem loginForm_validation_gates_login :
    (∀ password : String,
      ((handleSubmit { email := "not-an-email", password := password }).1.email).isSome = true
      ∧ (handleSubmit { email := "not-an-email", password := password }).2 = 0)
    ∧ ((handleSubmit { email := "a@b.com", password := "12345" }).1.password).isSome = true
    ∧ (handleSubmit { email := "a@b.com", password := "12345" }).2 = 0
    ∧ (handleSubmit { email := "a@b.com", password := "123456" }).2 = 1 := by
  refine ⟨?_, ?_, ?_, ?_⟩
  · intro password
    have hE : emailFieldError "not-an-email" = some "メールアドレスの形式が正しくありません" := by
      decide
    constructor
    · simp [handleSubmit, validateForm, formIsValid, hE]
    · simp [handleSubmit, validateForm, formIsValid, hE]
  · decide
  · decide
  · decide

-- ===== C9: getCompanyUsers tenant check =====

/-- C9: for every tenantId and acting user whose company_id differs from
it, and every query oracle, getCompanyUsers returns success = false and the
user-collection query is never executed. -/
theorem getCompanyUsers_tenant_mismatch_denied (companyId : String) (cu : AuthUser)
    (q : Except JsError (List User)) (h : cu.company_id ≠ companyId) :
    (getCompanyUsers companyId cu q).1.success = false
    ∧ (∀ cid, Effect.usersQueryCall cid ∉ (getCompanyUsers companyId cu q).2) := by
  unfold getCompanyUsers
  rw [if_pos h]
  refine ⟨rfl, ?_⟩
  intro cid hm
  simp at hm

theorem getCompanyUsers_tenant_mismatch_denied_witness :
    (getCompanyUsers "other-company-id" memberAuthUser (Except.ok [])).1.success = false
    ∧ Effect.usersQueryCall "other-company-id"
        ∉ (getCompanyUsers "other-company-id" memberAuthUser (Except.ok [])).2 :=
  have h := getCompanyUsers_tenant_mismatch_denied "other-company-id" memberAuthUser
    (Except.ok []) (by decide)
  ⟨h.1, h.2 "other-company-id"⟩

-- ===== C10: logout clears local state even when revocation fails =====

/-- C10: every Session Context logout transition clears both the local user
and company fields for every remote signOut outcome — including a failing
one — because logoutUser converts the failure into a failure envelope
instead of throwing, so the state-clearing statements after the await always
run. -/
theorem logout_clears_state_even_on_failure (s : SessionState) (r : Except JsError Unit) :
    (step s (SessionEvent.doLogout r)).user = none
    ∧ (step s (SessionEvent.doLogout r)).company = none
    ∧ (∀ e, r = Except.error e →
        (logoutUser r).1.success = false ∧ (logoutUser r).1.error.isSome = true) := by
  refine ⟨rfl, rfl, ?_⟩
  intro e h
  subst h
  exact ⟨rfl, rfl⟩

theorem logout_clears_state_even_on_failure_witness :
    (step initState (SessionEvent.doLogout (Except.error { message := "Logout failed" }))).user
      = none
    ∧ (step initState (SessionEvent.doLogout (Except.error { message := "Logout failed" }))).company
      = none
    ∧ (logoutUser (Except.error { message := "Logout failed" })).1.success = false :=
  have h := logout_clears_state_even_on_failure initState
    (Except.error { message := "Logout failed" })
  ⟨h.1, h.2.1, (h.2.2 { message := "Logout failed" } rfl).1⟩

theorem envelope_invariant_all_actions_witness :
    envelopeOk (loginUser "test@example.com" "password123" goodLoginWorld).1 = true
    ∧ envelopeOk (logoutUser (Except.ok ())).1 = true :=
  ⟨envelope_invariant_all_actions.1 "test@example.com" "password123" goodLoginWorld,
   envelope_invariant_all_actions.2.2.1 (Except.ok ())⟩

def toggleWorldOk : ToggleWorld :=
  { userDocRes := Except.ok (some activeUser), updateDocRes := Except.ok () }

theorem toggleUserStatus_self_always_fails_witness :
    (toggleUserStatus memberAuthUser.id true memberAuthUser toggleWorldOk).1.success = false :=
  (toggleUserStatus_self_always_fails true memberAuthUser toggleWorldOk).1

theorem loginForm_validation_gates_login_witness :
    ((handleSubmit { email := "not-an-email", password := "password123" }).1.email).isSome = true
    ∧ (handleSubmit { email := "not-an-email", password := "password123" }).2 = 0 :=
  loginForm_validation_gates_login.1 "password123"

end AsApp
